import Mathlib

/-!
Verification of the audio-alarm pipeline (`src/alarm_numpy.py`).

The script samples audio blocks, computes an RMS loudness per block
(`callback`, line 149), publishes a `{rms, alarm}` sample to a FIFO queue
(line 151), debounces the physical beep with a 2-second cooldown stored in
the module-level `last_beep_time` (lines 152-157), plays the beep with a
single-flight `beep_playing` flag (`play_beep`, lines 21-40), broadcasts
queued samples to subscribers (`emit_data`, lines 161-172), selects an
input-capable device (`select_device`, lines 175-190) and finds a free TCP
port (`find_free_port`, lines 192-201).

Sample amplitudes, loudness values, timestamps, thresholds and durations
are modelled as exact rationals (the Python floats under exact arithmetic);
the square root in the RMS lives in `ℝ`.
-/

namespace AudioAlarm

/-! ## Metric computer (`callback`, line 149: `rms = np.sqrt(np.mean(indata**2))`) -/

/-- Sum of squared sample amplitudes of a block (`np.mean(indata**2)` numerator). -/
def sumSq (xs : List ℚ) : ℚ := (xs.map fun x => x * x).sum

/-- `np.mean(indata**2)`: sum of squares divided by the block length.
For the empty block numpy yields NaN (division by a zero count); in `ℚ`
division by zero yields `0`, and the NaN case is tracked separately by
`computeMetric`. -/
def meanSq (xs : List ℚ) : ℚ := sumSq xs / (xs.length : ℚ)

/-- `np.sqrt(np.mean(indata**2))`: the RMS loudness of a block, as a real. -/
noncomputable def rms (xs : List ℚ) : ℝ := Real.sqrt ((meanSq xs : ℚ) : ℝ)

/-- Result of evaluating `np.sqrt(np.mean(indata**2))` on a block:
`none` models the NaN that numpy produces for a zero-length block
(`np.mean` of an empty array is NaN with a RuntimeWarning, and
`np.sqrt NaN = NaN`); `some` carries the well-defined RMS otherwise. -/
noncomputable def computeMetric (xs : List ℚ) : Option ℝ :=
  if xs.isEmpty then none else some (rms xs)

/-- Whether evaluating `rms = np.sqrt(np.mean(indata**2))` on a block raises
an exception. It never does: `indata**2` is elementwise on floats,
`np.mean` of an empty array returns NaN with a RuntimeWarning (warnings are
not exceptions), and `np.sqrt` of NaN returns NaN. No code path raises. -/
def computeRaises (_xs : List ℚ) : Bool := false

/-! ## Alarm decider (`callback`, lines 151-157)

The script keeps the cooldown state in the module-level `last_beep_time`
(initially `0`), the threshold in `THRESHOLD = 0.05`, and the cooldown
length as the literal `2` on line 155. Following the spec's data model we
collect the three into an `AlarmState`; the script instantiates it with
`threshold = 1/20`, `cooldown_duration = 2`, `last_alert_instant = 0`. -/

structure AlarmState where
  threshold : ℚ
  cooldown_duration : ℚ
  last_alert_instant : ℚ
  deriving Repr, DecidableEq

/-- The two boolean outputs of one callback invocation: `is_alarm` is the
`'alarm'` field published on line 151, `should_alert` is the guard that
starts the beep thread (conjunction of line 152 and line 155). -/
structure AlarmDecision where
  is_alarm : Bool
  should_alert : Bool
  deriving Repr, DecidableEq

/-- One decision step of `callback` (lines 151-157):
`is_alarm = rms > THRESHOLD`;
`should_alert = is_alarm and (now - last_beep_time > 2)`;
when `should_alert`, `last_beep_time` is set to `now`, otherwise the state
is unchanged. -/
def alarmDecide (loudness now : ℚ) (s : AlarmState) : AlarmDecision × AlarmState :=
  let ia : Bool := decide (loudness > s.threshold)
  let sa : Bool := ia && decide (now - s.last_alert_instant > s.cooldown_duration)
  (⟨ia, sa⟩, if sa then { s with last_alert_instant := now } else s)

/-- Run the decider over a list of `(loudness, now)` inputs, collecting the
per-step decision and post-state. -/
def runDecider (s : AlarmState) : List (ℚ × ℚ) → List (AlarmDecision × AlarmState)
  | [] => []
  | (l, t) :: rest =>
    let r := alarmDecide l t s
    r :: runDecider r.2 rest

/-- The `now` instants at which `should_alert` fired along a run. -/
def alertTimes (s : AlarmState) : List (ℚ × ℚ) → List ℚ
  | [] => []
  | (l, t) :: rest =>
    let r := alarmDecide l t s
    if r.1.should_alert then t :: alertTimes r.2 rest else alertTimes r.2 rest

/-- The trace of `last_beep_time` values along a run: the initial value
followed by the value after each decide step. -/
def lastTrace (s : AlarmState) (inputs : List (ℚ × ℚ)) : List ℚ :=
  s.last_alert_instant :: (runDecider s inputs).map (fun r => r.2.last_alert_instant)

/-- The script's alarm configuration: `THRESHOLD = 0.05` (line 17), the
cooldown literal `2` (line 155), `last_beep_time = 0` (line 19). -/
def scriptState : AlarmState := ⟨1/20, 2, 0⟩

/-- The end-to-end scenario of the spec: ten consecutive blocks of constant
loudness `0.10` at one-second spacing, the first arriving strictly more
than one cooldown after initialization (at `now = 3`). -/
def scenarioInputs : List (ℚ × ℚ) :=
  [(1/10, 3), (1/10, 4), (1/10, 5), (1/10, 6), (1/10, 7),
   (1/10, 8), (1/10, 9), (1/10, 10), (1/10, 11), (1/10, 12)]

/-! ## Alert actuator (`play_beep`, lines 21-40)

The script guards the beep with the module-level `beep_playing` flag: if it
is set, `play_beep` returns at once; otherwise it sets the flag, runs
`for _ in range(3): sd.play(beep); sd.wait(); time.sleep(0.1)` inside
`try/except Exception/finally`, the `except` swallows any emission error
(printing it), and the `finally` clears the flag. We model each run of
`play_beep` to completion; `failAt = some k` means the `sd.play` of the
k-th loop iteration (0-based) raises, `none` means no iteration fails. -/

structure ActuatorState where
  busy : Bool
  deriving Repr, DecidableEq

/-- Observable outcome of one `play_beep` call: the post-state of the
`beep_playing` flag, whether a new alert sequence was started, how many
tones were emitted, and whether an exception escaped the call. -/
structure BeepResult where
  state : ActuatorState
  started : Bool
  emitted : Nat
  raised : Bool
  deriving Repr, DecidableEq

/-- The `for _ in range(3)` emission loop: returns how many tones were
emitted and whether an iteration raised (stopping the loop). Arguments:
the failing iteration (if any), iterations remaining, current index. -/
def beepLoop (failAt : Option Nat) : Nat → Nat → Nat × Bool
  | 0, _ => (0, false)
  | n + 1, i =>
    if failAt = some i then (0, true)
    else
      let r := beepLoop failAt n (i + 1)
      (r.1 + 1, r.2)

/-- `play_beep` (lines 21-40), run to completion: an early return when
`beep_playing` is set (no side effect); otherwise the emission loop runs,
its exception (if any) is caught by the `except` clause and never
propagates, and the `finally` clause clears `beep_playing`. -/
def play_beep (failAt : Option Nat) (s : ActuatorState) : BeepResult :=
  if s.busy then
    { state := s, started := false, emitted := 0, raised := false }
  else
    let r := beepLoop failAt 3 0
    { state := { busy := false }, started := true, emitted := r.1, raised := false }

/-! ## Distribution hub (`callback` line 151, `emit_data` lines 161-172)

`callback` does `data_queue.put({'rms': rms, 'alarm': rms > THRESHOLD})`
exactly once per block; `emit_data` pops the FIFO queue and, per popped
item, emits an `rms_update` event and, when `data['alarm']` is set, an
additional `alarm` event. socketio delivers each emitted event to every
currently-connected subscriber in emission order. The published loudness
values are abstracted as the rationals pushed into the queue. -/

structure Sample where
  rms_val : ℚ
  alarm : Bool
  deriving Repr, DecidableEq

/-- The per-block publication of `callback` (line 151): the sample put into
`data_queue` for a block of loudness `l` under threshold `θ`. -/
def publishSample (θ l : ℚ) : Sample := ⟨l, decide (l > θ)⟩

/-- Queue contents after the callback processed a list of block loudnesses:
`data_queue.put` is called exactly once per block, appending FIFO. -/
def processBlocks (θ : ℚ) (loudnesses : List ℚ) : List Sample :=
  loudnesses.map (publishSample θ)

/-- A socketio event emitted by `emit_data`. -/
inductive Event where
  | update (rms_val : ℚ)
  | alarmEvt (rms_val : ℚ)
  deriving Repr, DecidableEq

/-- `emit_data` (lines 161-172): pop the queue front, emit `rms_update`,
emit `alarm` when the sample's flag is set, repeat. Returns the emission
order of events for a given queue content. -/
def emitData : List Sample → List Event
  | [] => []
  | d :: rest =>
    Event.update d.rms_val :: (if d.alarm then [Event.alarmEvt d.rms_val] else []) ++ emitData rest

/-- Whether an event is an `rms_update` (the per-sample delivery unit). -/
def Event.isUpdate : Event → Bool
  | .update _ => true
  | .alarmEvt _ => false

/-- What a subscriber receives: socketio hands every event emitted after
the subscriber connected to it, in emission order. `connectedAt` is the
number of events emitted before it connected. -/
def subscriberReceives (connectedAt : Nat) (events : List Event) : List Event :=
  events.drop connectedAt

/-! ## Device selection (`select_device`, lines 175-190) -/

structure Device where
  max_input_channels : Nat
  deriving Repr, DecidableEq

/-- The `for i, dev in enumerate(devices)` scan of lines 187-189: index of
the first device with `max_input_channels > 0`. -/
def findInputIdx : List Device → Option Nat
  | [] => none
  | d :: rest =>
    if d.max_input_channels > 0 then some 0 else (findInputIdx rest).map (· + 1)

/-- The fallback part of `select_device` (lines 182-190): look up
`devices[default_input]` (a Python lookup that raises `IndexError` when the
index is out of range; `sd.default.device[0]` is modelled as a
nonnegative index), return it if it has input channels, otherwise scan for
the first device with input channels, and raise `ValueError` if none. -/
def selectFallback (devices : List Device) (default_input : Nat) : Except String Nat :=
  match devices.get? default_input with
  | none => .error "IndexError"
  | some d =>
    if d.max_input_channels > 0 then .ok default_input
    else
      match findInputIdx devices with
      | some i => .ok i
      | none => .error "No input devices found"

/-- `select_device` (lines 175-190): when `DEVICE_INDEX` is set, in range
and input-capable, return it; otherwise (after a warning) fall back to the
default input device, then to the first input-capable device. -/
def select_device (device_index : Option Nat) (devices : List Device)
    (default_input : Nat) : Except String Nat :=
  match device_index with
  | some di =>
    if di < devices.length && (devices.getD di ⟨0⟩).max_input_channels > 0 then .ok di
    else selectFallback devices default_input
  | none => selectFallback devices default_input

/-! ## Port finding (`find_free_port`, lines 192-201)

`free p = true` models that binding `('0.0.0.0', p)` succeeds; a failed
bind raises `OSError`, caught by the loop which moves to the next port. -/

/-- The `while port < start_port + 100` loop, as structural recursion on
the number of ports left to examine. -/
def findPortLoop (free : Nat → Bool) : Nat → Nat → Option Nat
  | 0, _ => none
  | n + 1, port => if free port then some port else findPortLoop free n (port + 1)

/-- `find_free_port` (lines 192-201): try up to 100 consecutive ports
starting at `start_port`; return the first that binds, raise `OSError`
when all 100 fail. -/
def find_free_port (free : Nat → Bool) (start_port : Nat) : Except String Nat :=
  match findPortLoop free 100 start_port with
  | some p => .ok p
  | none => .error "No free ports found"

/-! ## Lemmas about the alarm decider -/

lemma alarmDecide_shouldAlert_iff (l t : ℚ) (s : AlarmState) :
    (alarmDecide l t s).1.should_alert = true ↔
      l > s.threshold ∧ t - s.last_alert_instant > s.cooldown_duration := by
  simp [alarmDecide]

lemma alarmDecide_state_pos (l t : ℚ) (s : AlarmState)
    (h : (alarmDecide l t s).1.should_alert = true) :
    (alarmDecide l t s).2 = { s with last_alert_instant := t } := by
  unfold alarmDecide at h ⊢
  simp only at h
  simp [h]

lemma alarmDecide_state_neg (l t : ℚ) (s : AlarmState)
    (h : (alarmDecide l t s).1.should_alert = false) :
    (alarmDecide l t s).2 = s := by
  unfold alarmDecide at h ⊢
  simp only at h
  simp [h]

lemma alarmDecide_threshold (l t : ℚ) (s : AlarmState) :
    ((alarmDecide l t s).2).threshold = s.threshold := by
  unfold alarmDecide
  simp only
  split <;> rfl

lemma alarmDecide_cooldown (l t : ℚ) (s : AlarmState) :
    ((alarmDecide l t s).2).cooldown_duration = s.cooldown_duration := by
  unfold alarmDecide
  simp only
  split <;> rfl

lemma alarmDecide_last_mono (l t : ℚ) (s : AlarmState) (hc : 0 ≤ s.cooldown_duration) :
    s.last_alert_instant ≤ ((alarmDecide l t s).2).last_alert_instant := by
  by_cases h : (alarmDecide l t s).1.should_alert = true
  · have ht := ((alarmDecide_shouldAlert_iff l t s).mp h).2
    rw [alarmDecide_state_pos l t s h]
    simp only
    linarith
  · rw [alarmDecide_state_neg l t s (Bool.eq_false_iff.mpr h)]

/-- Every alert fired along a run from `s` happens strictly more than one
cooldown after the `last_beep_time` recorded in `s`. -/
lemma alertTimes_mem_gt (inputs : List (ℚ × ℚ)) :
    ∀ s : AlarmState, 0 ≤ s.cooldown_duration →
      ∀ t ∈ alertTimes s inputs,
        s.last_alert_instant + s.cooldown_duration < t := by
  induction inputs with
  | nil => intro s _ t ht; simp [alertTimes] at ht
  | cons p rest ih =>
    intro s hc t ht
    obtain ⟨l, t0⟩ := p
    by_cases h : (alarmDecide l t0 s).1.should_alert = true
    · have hgt := ((alarmDecide_shouldAlert_iff l t0 s).mp h).2
      have hstate := alarmDecide_state_pos l t0 s h
      rw [alertTimes, if_pos h] at ht
      rcases List.mem_cons.mp ht with h1 | h2
      · subst h1; linarith
      · have hc2 : 0 ≤ ((alarmDecide l t0 s).2).cooldown_duration := by
          rw [alarmDecide_cooldown]; exact hc
        have := ih ((alarmDecide l t0 s).2) hc2 t h2
        rw [hstate] at this
        simp only at this
        linarith
    · have hb : (alarmDecide l t0 s).1.should_alert = false := Bool.eq_false_iff.mpr h
      rw [alertTimes, if_neg h, alarmDecide_state_neg l t0 s hb] at ht
      exact ih s hc t ht

/-- Alert times along a run are pairwise separated by more than one
cooldown. -/
lemma alertTimes_pairwise (inputs : List (ℚ × ℚ)) :
    ∀ s : AlarmState, 0 ≤ s.cooldown_duration →
      (alertTimes s inputs).Pairwise
        (fun a b => a + s.cooldown_duration < b) := by
  induction inputs with
  | nil => intro s _; simp [alertTimes]
  | cons p rest ih =>
    intro s hc
    obtain ⟨l, t0⟩ := p
    by_cases h : (alarmDecide l t0 s).1.should_alert = true
    · have hstate := alarmDecide_state_pos l t0 s h
      have hc2 : 0 ≤ ((alarmDecide l t0 s).2).cooldown_duration := by
        rw [alarmDecide_cooldown]; exact hc
      rw [alertTimes, if_pos h]
      refine List.pairwise_cons.mpr ⟨?_, ?_⟩
      · intro b hb
        have := alertTimes_mem_gt rest ((alarmDecide l t0 s).2) hc2 b hb
        rw [hstate] at this
        simp only at this
        calc t0 + s.cooldown_duration
            = t0 + ((alarmDecide l t0 s).2).cooldown_duration := by
              rw [alarmDecide_cooldown]
          _ < b := by rw [hstate] at hc2 ⊢; simp only at this ⊢; linarith
      · have := ih ((alarmDecide l t0 s).2) hc2
        rwa [alarmDecide_cooldown] at this
    · rw [alertTimes, if_neg h,
        alarmDecide_state_neg l t0 s (Bool.eq_false_iff.mpr h)]
      exact ih s hc

lemma lastTrace_chain (inputs : List (ℚ × ℚ)) :
    ∀ s : AlarmState, 0 ≤ s.cooldown_duration →
      (lastTrace s inputs).Chain' (· ≤ ·) := by
  induction inputs with
  | nil => intro s _; simp [lastTrace, runDecider]
  | cons p rest ih =>
    intro s hc
    obtain ⟨l, t0⟩ := p
    have hc2 : 0 ≤ ((alarmDecide l t0 s).2).cooldown_duration := by
      rw [alarmDecide_cooldown]; exact hc
    have htail := ih ((alarmDecide l t0 s).2) hc2
    unfold lastTrace at htail ⊢
    rw [runDecider]
    simp only [List.map_cons]
    exact List.Chain'.cons (alarmDecide_last_mono l t0 s hc) htail

/-- Kernel reduction is unavailable for `ℚ` literals, so concrete rational
facts used to discharge witness hypotheses are proved here once. -/
lemma script_cooldown_nonneg : (0 : ℚ) ≤ scriptState.cooldown_duration := by
  norm_num [scriptState]

lemma shouldAlert_at_three :
    (alarmDecide (1/10) 3 scriptState).1.should_alert = true := by
  simp only [alarmDecide, scriptState]
  norm_num

lemma example_inputs_time_ordered :
    List.Chain' (fun a b : ℚ × ℚ => a.2 ≤ b.2)
      [(1/10, 3), (1/100, 4), (1/10, 6)] := by
  simp only [List.chain'_cons, List.chain'_singleton, and_true]
  norm_num

/-- C1: along any run of the decider, `should_alert` is never true at two
instants separated by at most `cooldown_duration` seconds; and per step,
`should_alert` holds exactly when the loudness exceeds the threshold and
strictly more than `cooldown_duration` seconds have elapsed since
`last_alert_instant`. -/
theorem shouldAlert_cooldown_exclusion (s : AlarmState) (inputs : List (ℚ × ℚ))
    (hc : 0 ≤ s.cooldown_duration) :
    (alertTimes s inputs).Pairwise
      (fun a b => ¬ |b - a| ≤ s.cooldown_duration) ∧
    ∀ l t s', (alarmDecide l t s').1.should_alert = true ↔
      l > s'.threshold ∧ t - s'.last_alert_instant > s'.cooldown_duration := by
  refine ⟨?_, fun l t s' => alarmDecide_shouldAlert_iff l t s'⟩
  refine (alertTimes_pairwise inputs s hc).imp ?_
  intro a b hab hle
  have habs : |b - a| = b - a := abs_of_pos (by linarith)
  rw [habs] at hle
  linarith

/-- Witness for C1 at the script's configuration (`threshold = 1/20`,
`cooldown = 2`, `last_beep_time = 0`) and a concrete loud run. -/
theorem shouldAlert_cooldown_exclusion_witness :
    (alertTimes scriptState [(1/10, 3), (1/10, 4), (1/10, 6)]).Pairwise
      (fun a b => ¬ |b - a| ≤ scriptState.cooldown_duration) ∧
    ∀ l t s', (alarmDecide l t s').1.should_alert = true ↔
      l > s'.threshold ∧ t - s'.last_alert_instant > s'.cooldown_duration :=
  shouldAlert_cooldown_exclusion scriptState [(1/10, 3), (1/10, 4), (1/10, 6)]
    script_cooldown_nonneg

/-- C4: the published `'alarm'` flag equals `rms > THRESHOLD` and does not
depend on `now` or on the cooldown state (`last_beep_time`, cooldown
length). -/
theorem isAlarm_iff_threshold (l t θ c last t' c' last' : ℚ) :
    ((alarmDecide l t ⟨θ, c, last⟩).1.is_alarm = true ↔ l > θ) ∧
    (alarmDecide l t ⟨θ, c, last⟩).1.is_alarm
      = (alarmDecide l t' ⟨θ, c', last'⟩).1.is_alarm := by
  constructor
  · simp [alarmDecide]
  · rfl

/-- C5: a decide step sets `last_beep_time` to `now` exactly when
`should_alert` fires and leaves the state unchanged otherwise; along any
run with non-decreasing `now`, the `last_beep_time` trace is monotonically
non-decreasing. -/
theorem decider_state_update (s : AlarmState) (hc : 0 ≤ s.cooldown_duration) :
    (∀ l t s', ((alarmDecide l t s').1.should_alert = true →
        (alarmDecide l t s').2 = { s' with last_alert_instant := t }) ∧
      ((alarmDecide l t s').1.should_alert = false →
        (alarmDecide l t s').2 = s')) ∧
    ∀ inputs : List (ℚ × ℚ), inputs.Chain' (fun a b => a.2 ≤ b.2) →
      (lastTrace s inputs).Chain' (· ≤ ·) := by
  refine ⟨fun l t s' => ⟨alarmDecide_state_pos l t s', alarmDecide_state_neg l t s'⟩, ?_⟩
  intro inputs _
  exact lastTrace_chain inputs s hc

/-- Witness for C5: at the script's configuration, the loud step at `now = 3`
updates `last_beep_time` to 3, and a concrete time-ordered run has a
non-decreasing `last_beep_time` trace. -/
theorem decider_state_update_witness :
    (alarmDecide (1/10) 3 scriptState).2 = { scriptState with last_alert_instant := 3 } ∧
    (lastTrace scriptState [(1/10, 3), (1/100, 4), (1/10, 6)]).Chain' (· ≤ ·) :=
  ⟨((decider_state_update scriptState script_cooldown_nonneg).1 (1/10) 3 scriptState).1
      shouldAlert_at_three,
   (decider_state_update scriptState script_cooldown_nonneg).2
      [(1/10, 3), (1/100, 4), (1/10, 6)] example_inputs_time_ordered⟩

/-! ## Lemmas about the metric computer -/

lemma sumSq_nil : sumSq [] = 0 := rfl

lemma sumSq_cons (a : ℚ) (l : List ℚ) : sumSq (a :: l) = a * a + sumSq l := by
  simp [sumSq]

lemma sumSq_nonneg : ∀ xs : List ℚ, 0 ≤ sumSq xs
  | [] => le_of_eq sumSq_nil.symm
  | a :: l => by
    rw [sumSq_cons]
    have h1 := sumSq_nonneg l
    have h2 := mul_self_nonneg a
    linarith

lemma sumSq_eq_zero_iff (xs : List ℚ) : sumSq xs = 0 ↔ ∀ x ∈ xs, x = 0 := by
  induction xs with
  | nil => simp [sumSq_nil]
  | cons a l ih =>
    rw [sumSq_cons]
    constructor
    · intro h
      have h1 := sumSq_nonneg l
      have h2 := mul_self_nonneg a
      have ha : a * a = 0 := by linarith
      have hl : sumSq l = 0 := by linarith
      intro x hx
      rcases List.mem_cons.mp hx with h3 | h3
      · rw [h3]; exact mul_self_eq_zero.mp ha
      · exact (ih.mp hl) x h3
    · intro h
      have ha : a = 0 := h a (List.mem_cons_self a l)
      have hl : sumSq l = 0 := ih.mpr (fun x hx => h x (List.mem_cons_of_mem a hx))
      rw [ha, hl]
      ring

lemma meanSq_nonneg (xs : List ℚ) : 0 ≤ meanSq xs :=
  div_nonneg (sumSq_nonneg xs) (by positivity)

/-- C2: the metric computer returns `sqrt(mean(sample_i^2))`; the value is
nonnegative, and for a non-empty block it is zero exactly when every sample
is zero. -/
theorem compute_rms_spec (xs : List ℚ) (hne : xs ≠ []) :
    rms xs = Real.sqrt (((sumSq xs / xs.length : ℚ) : ℝ)) ∧
    0 ≤ rms xs ∧
    (rms xs = 0 ↔ ∀ x ∈ xs, x = 0) := by
  refine ⟨rfl, Real.sqrt_nonneg _, ?_⟩
  have hlen : (xs.length : ℚ) ≠ 0 := by
    have : xs.length ≠ 0 := fun h => hne (List.length_eq_zero.mp h)
    exact_mod_cast this
  rw [rms, Real.sqrt_eq_zero']
  have hcast : ((meanSq xs : ℚ) : ℝ) ≤ 0 ↔ meanSq xs ≤ 0 := by
    exact_mod_cast Iff.rfl
  rw [hcast]
  constructor
  · intro h
    have h0 : meanSq xs = 0 := le_antisymm h (meanSq_nonneg xs)
    have : sumSq xs = 0 := by
      rcases div_eq_zero_iff.mp h0 with h1 | h1
      · exact h1
      · exact absurd h1 hlen
    exact (sumSq_eq_zero_iff xs).mp this
  · intro h
    have : sumSq xs = 0 := (sumSq_eq_zero_iff xs).mpr h
    rw [meanSq, this, zero_div]

/-- Witness for C2 at the block `[1/2, 0]`. -/
theorem compute_rms_spec_witness :
    rms [1/2, 0] = Real.sqrt (((sumSq [1/2, 0] / ([1/2, 0] : List ℚ).length : ℚ) : ℝ)) ∧
    0 ≤ rms [1/2, 0] ∧
    (rms [1/2, 0] = 0 ↔ ∀ x ∈ ([1/2, 0] : List ℚ), x = 0) :=
  compute_rms_spec [1/2, 0] (by simp)

/-- C3 counterexample: on the zero-length block the metric computation does
not raise any exception (in particular no `InvalidBlock`): numpy yields NaN
(a warning, not an exception), modelled by `computeMetric [] = none`. -/
theorem compute_empty_does_not_raise :
    computeRaises [] = false ∧ computeMetric [] = none :=
  ⟨rfl, rfl⟩

/-- C3 (amended): the metric computation never raises for any block; the
result is NaN exactly when the block has length zero, and a well-defined
RMS value otherwise. -/
theorem compute_raises_never (xs : List ℚ) :
    computeRaises xs = false ∧ (computeMetric xs = none ↔ xs = []) := by
  refine ⟨rfl, ?_⟩
  unfold computeMetric
  rcases xs with _ | ⟨a, l⟩ <;> simp

/-! ## Alert actuator -/

/-- C6: a `play_beep` call that finds `beep_playing` set returns at once
with no observable side effect (no new alert sequence, no error); a call
that starts an alert sequence ends with `beep_playing = false` and no
escaping exception, whichever loop iteration (if any) fails. -/
theorem play_beep_single_flight (failAt : Option Nat) (s : ActuatorState) :
    (s.busy = true →
      play_beep failAt s = { state := s, started := false, emitted := 0, raised := false }) ∧
    ((play_beep failAt s).started = true →
      (play_beep failAt s).state.busy = false ∧ (play_beep failAt s).raised = false) := by
  unfold play_beep
  by_cases h : s.busy <;> simp [h]

/-- Witness for C6: a busy call is a no-op; a non-busy call with the second
tone emission failing still ends non-busy and raises nothing. -/
theorem play_beep_single_flight_witness :
    play_beep (some 1) ⟨true⟩
      = { state := ⟨true⟩, started := false, emitted := 0, raised := false } ∧
    ((play_beep (some 1) ⟨false⟩).state.busy = false ∧
      (play_beep (some 1) ⟨false⟩).raised = false) :=
  ⟨(play_beep_single_flight (some 1) ⟨true⟩).1 rfl,
   (play_beep_single_flight (some 1) ⟨false⟩).2 rfl⟩

/-! ## End-to-end scenario (threshold 0.05, loudness 0.10, cooldown 2 s,
1 s blocks) -/

/-- Evaluation of the ten scenario steps: every block is above threshold,
and `should_alert` fires at blocks 1, 4, 7 and 10. Block 3 arrives exactly
2 s after block 1 and the cooldown test `now - last_beep_time > 2` is
strict, so block 3 does not re-alert. -/
lemma scenario_run_eval :
    (runDecider scriptState scenarioInputs).map
        (fun r => (r.1.is_alarm, r.1.should_alert))
      = [(true, true), (true, false), (true, false), (true, true),
         (true, false), (true, false), (true, true), (true, false),
         (true, false), (true, true)] := by
  norm_num [scenarioInputs, scriptState, runDecider, alarmDecide]

/-- C7 counterexample: in the end-to-end scenario the physical alert fires
at block 1 but not at block 3, contradicting the claimed alert at block 3. -/
theorem scenario_block3_not_alerted :
    ((runDecider scriptState scenarioInputs).map (fun r => r.1.should_alert)).get? 0
        = some true ∧
    ((runDecider scriptState scenarioInputs).map (fun r => r.1.should_alert)).get? 2
        = some false := by
  have h := scenario_run_eval
  have h2 : (runDecider scriptState scenarioInputs).map (fun r => r.1.should_alert)
      = ((runDecider scriptState scenarioInputs).map
          (fun r => (r.1.is_alarm, r.1.should_alert))).map Prod.snd := by
    rw [List.map_map]; rfl
  rw [h2, h]
  constructor <;> rfl

/-- C7 (amended): under exact one-second spacing with the first block
arriving more than one cooldown after initialization, the scenario
triggers physical alerts at blocks 1, 4, 7 and 10 (not at blocks 2 or 3),
and all ten published samples have `is_alarm` true. -/
theorem scenario_alert_pattern :
    (runDecider scriptState scenarioInputs).map (fun r => r.1.should_alert)
      = [true, false, false, true, false, false, true, false, false, true] ∧
    ∀ r ∈ runDecider scriptState scenarioInputs, r.1.is_alarm = true := by
  have h := scenario_run_eval
  constructor
  · have h2 : (runDecider scriptState scenarioInputs).map (fun r => r.1.should_alert)
        = ((runDecider scriptState scenarioInputs).map
            (fun r => (r.1.is_alarm, r.1.should_alert))).map Prod.snd := by
      rw [List.map_map]; rfl
    rw [h2, h]
    rfl
  · intro r hr
    have hmem : (r.1.is_alarm, r.1.should_alert)
        ∈ [((true : Bool), (true : Bool)), (true, false), (true, false), (true, true),
           (true, false), (true, false), (true, true), (true, false),
           (true, false), (true, true)] := by
      rw [← h]
      exact List.mem_map_of_mem _ hr
    simp only [List.mem_cons, List.not_mem_nil, or_false, Prod.mk.injEq] at hmem
    rcases hmem with ⟨h1, _⟩ | ⟨h1, _⟩ | ⟨h1, _⟩ | ⟨h1, _⟩ | ⟨h1, _⟩ | ⟨h1, _⟩ |
      ⟨h1, _⟩ | ⟨h1, _⟩ | ⟨h1, _⟩ | ⟨h1, _⟩ <;> exact h1

/-! ## Distribution hub -/

lemma emitData_filter_update (q : List Sample) :
    (emitData q).filter Event.isUpdate = q.map (fun d => Event.update d.rms_val) := by
  induction q with
  | nil => rfl
  | cons d rest ih =>
    rw [emitData]
    by_cases h : d.alarm <;>
      simp [h, List.filter_append, List.filter, Event.isUpdate, ih]

/-- C8: the callback publishes exactly one sample per processed block, in
block order; the per-sample `rms_update` events are emitted exactly once
per published sample, in publication order; and a subscriber connected
after `c` events receives the emission sequence as a contiguous suffix, so
a sample published before another is received before it. -/
theorem publish_fifo_per_subscriber (θ : ℚ) (loudnesses : List ℚ) (c : Nat) :
    (processBlocks θ loudnesses).length = loudnesses.length ∧
    (∀ k : Nat, (processBlocks θ loudnesses).get? k
      = (loudnesses.get? k).map (publishSample θ)) ∧
    (emitData (processBlocks θ loudnesses)).filter Event.isUpdate
      = loudnesses.map Event.update ∧
    (emitData (processBlocks θ loudnesses)).take c
        ++ subscriberReceives c (emitData (processBlocks θ loudnesses))
      = emitData (processBlocks θ loudnesses) := by
  refine ⟨List.length_map _ _, fun k => List.get?_map _ _ _, ?_, ?_⟩
  · rw [emitData_filter_update, processBlocks, List.map_map]
    rfl
  · exact List.take_append_drop c _

/-! ## Device selection -/

lemma findInputIdx_capable :
    ∀ (devices : List Device) (i : Nat), findInputIdx devices = some i →
      ∃ h : i < devices.length, 0 < (devices.get ⟨i, h⟩).max_input_channels := by
  intro devices
  induction devices with
  | nil => intro i h; simp [findInputIdx] at h
  | cons d rest ih =>
    intro i h
    rw [findInputIdx] at h
    by_cases hd : d.max_input_channels > 0
    · rw [if_pos hd] at h
      cases h
      exact ⟨Nat.succ_pos _, hd⟩
    · rw [if_neg hd] at h
      rcases Option.map_eq_some'.mp h with ⟨j, hj, hji⟩
      rcases ih j hj with ⟨hlt, hcap⟩
      subst hji
      exact ⟨Nat.succ_lt_succ hlt, hcap⟩

lemma findInputIdx_none (devices : List Device)
    (h : ∀ d ∈ devices, d.max_input_channels = 0) :
    findInputIdx devices = none := by
  induction devices with
  | nil => rfl
  | cons d rest ih =>
    rw [findInputIdx]
    have hd : d.max_input_channels = 0 := h d (List.mem_cons_self d rest)
    rw [if_neg (by omega)]
    rw [ih (fun x hx => h x (List.mem_cons_of_mem d hx))]
    rfl

lemma selectFallback_eq_oob (devices : List Device) (d0 : Nat)
    (h : devices.get? d0 = none) :
    selectFallback devices d0 = .error "IndexError" := by
  unfold selectFallback
  rw [h]

lemma selectFallback_eq_hit (devices : List Device) (d0 : Nat) (d : Device)
    (h : devices.get? d0 = some d) :
    selectFallback devices d0
      = if d.max_input_channels > 0 then .ok d0
        else
          match findInputIdx devices with
          | some i => .ok i
          | none => .error "No input devices found" := by
  unfold selectFallback
  rw [h]

lemma select_device_eq_some (j : Nat) (devices : List Device) (d0 : Nat) :
    select_device (some j) devices d0
      = if (j < devices.length && (devices.getD j ⟨0⟩).max_input_channels > 0)
        then .ok j else selectFallback devices d0 := rfl

lemma select_device_eq_none (devices : List Device) (d0 : Nat) :
    select_device none devices d0 = selectFallback devices d0 := rfl

lemma selectFallback_ok_capable (devices : List Device) (d0 i : Nat)
    (h : selectFallback devices d0 = .ok i) :
    ∃ hlt : i < devices.length, 0 < (devices.get ⟨i, hlt⟩).max_input_channels := by
  rcases hg : devices.get? d0 with _ | d
  · rw [selectFallback_eq_oob devices d0 hg] at h
    exact absurd h (by simp)
  · rw [selectFallback_eq_hit devices d0 d hg] at h
    by_cases hd : d.max_input_channels > 0
    · rw [if_pos hd] at h
      injection h with hd0
      subst hd0
      have hlt : d0 < devices.length := (List.get?_eq_some.mp hg).1
      refine ⟨hlt, ?_⟩
      have hge := List.get?_eq_get hlt
      rw [hg] at hge
      injection hge with h2
      rw [← h2]
      exact hd
    · rw [if_neg hd] at h
      rcases hf : findInputIdx devices with _ | j
      · rw [hf] at h
        exact absurd h (by simp)
      · rw [hf] at h
        cases h
        exact findInputIdx_capable devices i hf

lemma selectFallback_error_of_none (devices : List Device) (d0 : Nat)
    (h : ∀ d ∈ devices, d.max_input_channels = 0) :
    ∃ e, selectFallback devices d0 = .error e := by
  rcases hg : devices.get? d0 with _ | d
  · exact ⟨"IndexError", selectFallback_eq_oob devices d0 hg⟩
  · have hd : d.max_input_channels = 0 := h d (List.get?_mem hg)
    rw [selectFallback_eq_hit devices d0 d hg, if_neg (by omega),
      findInputIdx_none devices h]
    exact ⟨"No input devices found", rfl⟩

/-- C9: a successfully selected device always has at least one input
channel; the configured index wins whenever it is in range and
input-capable; when the configured index is absent the in-range,
input-capable default wins; and when no device has an input channel the
selection raises instead of returning. -/
theorem select_device_input_capable (di : Option Nat) (devices : List Device)
    (default_input : Nat) :
    (∀ i, select_device di devices default_input = .ok i →
      ∃ h : i < devices.length, 0 < (devices.get ⟨i, h⟩).max_input_channels) ∧
    (∀ i, di = some i → ∀ h : i < devices.length,
      0 < (devices.get ⟨i, h⟩).max_input_channels →
      select_device di devices default_input = .ok i) ∧
    (di = none → ∀ h : default_input < devices.length,
      0 < (devices.get ⟨default_input, h⟩).max_input_channels →
      select_device di devices default_input = .ok default_input) ∧
    ((∀ d ∈ devices, d.max_input_channels = 0) →
      ∃ e, select_device di devices default_input = .error e) := by
  refine ⟨?_, ?_, ?_, ?_⟩
  · intro i hok
    rcases di with _ | j
    · rw [select_device_eq_none] at hok
      exact selectFallback_ok_capable devices default_input i hok
    · rw [select_device_eq_some] at hok
      by_cases hc : (j < devices.length
          && (devices.getD j ⟨0⟩).max_input_channels > 0) = true
      · rw [if_pos hc] at hok
        cases hok
        have hc2 : i < devices.length ∧
            (devices.getD i ⟨0⟩).max_input_channels > 0 := by
          simpa using hc
        refine ⟨hc2.1, ?_⟩
        have := hc2.2
        rwa [List.getD_eq_get _ _ hc2.1] at this
      · rw [if_neg hc] at hok
        exact selectFallback_ok_capable devices default_input i hok
  · intro i hdi hlt hcap
    subst hdi
    rw [select_device_eq_some, if_pos]
    simp only [Bool.and_eq_true, decide_eq_true_eq]
    exact ⟨hlt, by rwa [List.getD_eq_get _ _ hlt]⟩
  · intro hdi hlt hcap
    subst hdi
    rw [select_device_eq_none,
      selectFallback_eq_hit devices default_input _ (List.get?_eq_get hlt),
      if_pos hcap]
  · intro h
    rcases di with _ | j
    · rw [select_device_eq_none]
      exact selectFallback_error_of_none devices default_input h
    · rw [select_device_eq_some]
      by_cases hc : (j < devices.length
          && (devices.getD j ⟨0⟩).max_input_channels > 0) = true
      · exfalso
        have hc2 : j < devices.length ∧
            (devices.getD j ⟨0⟩).max_input_channels > 0 := by
          simpa using hc
        have hget := hc2.2
        rw [List.getD_eq_get _ _ hc2.1] at hget
        have hz := h (devices.get ⟨j, hc2.1⟩) (List.get_mem devices j hc2.1)
        omega
      · rw [if_neg hc]
        exact selectFallback_error_of_none devices default_input h

/-- Witness for C9 on a concrete device table: devices `[0, 2]` channel
counts; the fallback selection returns device 1 (two input channels), and
a table with no input channels makes selection raise. -/
theorem select_device_input_capable_witness :
    (∃ h : 1 < ([⟨0⟩, ⟨2⟩] : List Device).length,
      0 < (([⟨0⟩, ⟨2⟩] : List Device).get ⟨1, h⟩).max_input_channels) ∧
    (∃ e, select_device none ([⟨0⟩] : List Device) 0 = .error e) :=
  ⟨(select_device_input_capable none [⟨0⟩, ⟨2⟩] 0).1 1 rfl,
   (select_device_input_capable none [⟨0⟩] 0).2.2.2 (by decide)⟩

/-! ## Port finding -/

lemma findPortLoop_some (free : Nat → Bool) :
    ∀ (fuel start p : Nat), findPortLoop free fuel start = some p →
      start ≤ p ∧ p < start + fuel ∧ free p = true ∧
      ∀ q, start ≤ q → q < p → free q = false := by
  intro fuel
  induction fuel with
  | zero => intro start p h; simp [findPortLoop] at h
  | succ n ih =>
    intro start p h
    rw [findPortLoop] at h
    by_cases hf : free start = true
    · rw [if_pos hf] at h
      cases h
      exact ⟨le_refl _, by omega, hf, fun q h1 h2 => absurd h1 (by omega)⟩
    · rw [if_neg hf] at h
      rcases ih (start + 1) p h with ⟨h1, h2, h3, h4⟩
      refine ⟨by omega, by omega, h3, ?_⟩
      intro q hq1 hq2
      by_cases hq : q = start
      · rw [hq]; exact Bool.eq_false_iff.mpr hf
      · exact h4 q (by omega) hq2

lemma findPortLoop_none (free : Nat → Bool) :
    ∀ (fuel start : Nat), (∀ p, start ≤ p → p < start + fuel → free p = false) →
      findPortLoop free fuel start = none := by
  intro fuel
  induction fuel with
  | zero => intro start _; rfl
  | succ n ih =>
    intro start h
    rw [findPortLoop]
    rw [if_neg (by rw [h start (le_refl _) (by omega)]; simp)]
    exact ih (start + 1) (fun p h1 h2 => h p (by omega) (by omega))

/-- C10: port search terminates after examining at most the 100 ports
`start_port ≤ p < start_port + 100`; a returned port is the first bindable
one in that window, and when none of the 100 ports binds, the search
raises `OSError`. -/
theorem find_free_port_bounded (free : Nat → Bool) (start_port : Nat) :
    (∀ p, find_free_port free start_port = .ok p →
      start_port ≤ p ∧ p < start_port + 100 ∧ free p = true ∧
      ∀ q, start_port ≤ q → q < p → free q = false) ∧
    ((∀ p, start_port ≤ p → p < start_port + 100 → free p = false) →
      find_free_port free start_port = .error "No free ports found") := by
  constructor
  · intro p hok
    unfold find_free_port at hok
    rcases hl : findPortLoop free 100 start_port with _ | q
    · rw [hl] at hok
      exact absurd hok (by simp)
    · rw [hl] at hok
      cases hok
      exact findPortLoop_some free 100 start_port p hl
  · intro h
    unfold find_free_port
    rw [findPortLoop_none free 100 start_port h]

/-- Witness for C10: with only port 5002 free the search returns 5002, and
with no port free it raises. -/
theorem find_free_port_bounded_witness :
    (5000 ≤ 5002 ∧ 5002 < 5000 + 100 ∧ (fun p => p == 5002) 5002 = true ∧
      ∀ q, 5000 ≤ q → q < 5002 → (fun p => p == 5002) q = false) ∧
    find_free_port (fun _ => false) 5000 = .error "No free ports found" :=
  ⟨(find_free_port_bounded (fun p => p == 5002) 5000).1 5002 rfl,
   (find_free_port_bounded (fun _ => false) 5000).2 (fun _ _ _ => rfl)⟩

end AudioAlarm
